import Mathlib

/-
  Verification development for the CHIP-8 interpreter in src/CHIP-8.cpp.

  The interpreter state (the C++ globals m_GameMemory, m_Registers, m_Keyboard,
  m_AddressI, m_PC, m_Stack, delayTimer, soundTimer, m_ScreenData) is embedded
  as the structure Chip8 below.  Machine integers are modelled as Nat with an
  explicit truncation at each store: a store into a BYTE (unsigned char) is
  reduced mod 256 and a store into a WORD (unsigned short) mod 65536, which is
  exactly the C++ conversion semantics.  Arrays are modelled as total
  functions; the C++ int arithmetic inside a handler (which cannot overflow an
  int for byte-sized inputs) is carried out in Nat, with Int used where the
  source subtracts (the int difference may be negative and is truncated mod
  256 on the store, i.e. two's-complement wrapping).

  Each OpcodeNNNN definition is a line-by-line translation of the C++ handler
  of the same name; DecodeOpcodeCycle mirrors the dispatch switch plus the
  per-call timer decrements, and CycleStep is one iteration of the main loop
  (fetch via GetNextOpcode, then DecodeOpcodeCycle).
-/

/-- The interpreter state: the C++ globals of src/CHIP-8.cpp. -/
structure Chip8 where
  m_GameMemory : Nat → Nat
  m_Registers : Nat → Nat
  m_Keyboard : Nat → Nat
  m_AddressI : Nat
  m_PC : Nat
  m_Stack : List Nat
  delayTimer : Nat
  soundTimer : Nat
  m_ScreenData : Nat × Nat → Nat
  randValue : Nat

/-- const unsigned int SCREEN_WIDTH = 64. -/
def SCREEN_WIDTH : Nat := 64

/-- const unsigned int SCREEN_HEIGHT = 32. -/
def SCREEN_HEIGHT : Nat := 32

/-- const unsigned int numOfSprites = 16. -/
def numOfSprites : Nat := 16

/-- const unsigned int numOfPixels = 5. -/
def numOfPixels : Nat := 5

/-- The font table m_FontData, one row of 5 bytes per hexadecimal digit. -/
def m_FontData : List (List Nat) :=
  [[0xF0, 0x90, 0x90, 0x90, 0xF0],
   [0x20, 0x60, 0x20, 0x20, 0x70],
   [0xF0, 0x10, 0xF0, 0x80, 0xF0],
   [0xF0, 0x10, 0xF0, 0x10, 0xF0],
   [0x90, 0x90, 0xF0, 0x10, 0x10],
   [0xF0, 0x80, 0xF0, 0x10, 0xF0],
   [0xF0, 0x80, 0xF0, 0x90, 0xF0],
   [0xF0, 0x10, 0x20, 0x40, 0x40],
   [0xF0, 0x90, 0xF0, 0x90, 0xF0],
   [0xF0, 0x90, 0xF0, 0x10, 0xF0],
   [0xF0, 0x90, 0xF0, 0x90, 0x90],
   [0xE0, 0x90, 0xE0, 0x90, 0xE0],
   [0xF0, 0x80, 0x80, 0x80, 0xF0],
   [0xE0, 0x90, 0x90, 0x90, 0xE0],
   [0xF0, 0x80, 0xF0, 0x80, 0xF0],
   [0xF0, 0x80, 0xF0, 0x80, 0x80]]

/-- m_FontData[i][j] as a byte value. -/
def fontByte (i j : Nat) : Nat := (m_FontData.getD i []).getD j 0

/-- Store v into register i (a BYTE store truncates mod 256). -/
def setRegister (s : Chip8) (i v : Nat) : Chip8 :=
  { s with m_Registers := Function.update s.m_Registers i (v % 256) }

/-- Store v into memory address a (a BYTE store truncates mod 256). -/
def setMemory (s : Chip8) (a v : Nat) : Chip8 :=
  { s with m_GameMemory := Function.update s.m_GameMemory a (v % 256) }

/-- Truncate an int value to a BYTE store: two's-complement wrap mod 256. -/
def byteOfInt (v : Int) : Nat := (v % 256).toNat

/-- CPUReset: zero registers, keyboard and memory, set I and PC, then copy the
font into memory with the source's stride m_GameMemory[i*numOfSprites+j]
(the stack, timers and screen are not touched by the C++ function). -/
def CPUReset (s : Chip8) : Chip8 :=
  let s0 := { s with m_AddressI := 0, m_PC := 0x200,
                     m_Registers := fun _ => 0, m_Keyboard := fun _ => 0,
                     m_GameMemory := fun _ => 0 }
  (List.range numOfSprites).foldl (fun st i =>
    (List.range numOfPixels).foldl (fun st2 j =>
      setMemory st2 (i * numOfSprites + j) (fontByte i j)) st) s0

/-- int GetRegisterX(WORD opcode) { return (opcode and 0x0F00) shifted right 8; } -/
def GetRegisterX (opcode : Nat) : Nat := (opcode &&& 0x0F00) >>> 8

/-- int GetRegisterY(WORD opcode) { return (opcode and 0x00F0) shifted right 4; } -/
def GetRegisterY (opcode : Nat) : Nat := (opcode &&& 0x00F0) >>> 4

/-- WORD GetNextOpcode(): fetch two bytes big-endian at PC and advance PC by 2
(m_PC is a WORD, so the increment wraps mod 65536). -/
def GetNextOpcode (s : Chip8) : Nat × Chip8 :=
  let res := ((s.m_GameMemory s.m_PC <<< 8) ||| s.m_GameMemory (s.m_PC + 1)) % 65536
  (res, { s with m_PC := (s.m_PC + 2) % 65536 })

/-- Opcode00E0: clear the screen (std::fill of all SCREEN_WIDTH*SCREEN_HEIGHT bytes). -/
def Opcode00E0 (_opcode : Nat) (s : Chip8) : Chip8 :=
  { s with m_ScreenData := fun _ => 0 }

/-- Opcode00EE: m_PC = m_Stack.back(); m_Stack.pop_back().  back() on an empty
vector is undefined behaviour in C++; the embedding returns 0 there. -/
def Opcode00EE (_opcode : Nat) (s : Chip8) : Chip8 :=
  { s with m_PC := s.m_Stack.getLastD 0, m_Stack := s.m_Stack.dropLast }

/-- Opcode1NNN: m_PC = opcode and 0x0FFF. -/
def Opcode1NNN (opcode : Nat) (s : Chip8) : Chip8 :=
  { s with m_PC := opcode &&& 0x0FFF }

/-- Opcode2NNN: m_Stack.push_back(m_PC); m_PC = opcode and 0x0FFF.  The vector
grows without bound: there is no capacity check. -/
def Opcode2NNN (opcode : Nat) (s : Chip8) : Chip8 :=
  { s with m_Stack := s.m_Stack ++ [s.m_PC], m_PC := opcode &&& 0x0FFF }

/-- Opcode3XNN: skip next instruction if VX == NN. -/
def Opcode3XNN (opcode : Nat) (s : Chip8) : Chip8 :=
  let regx := GetRegisterX opcode
  let nn := opcode &&& 0x00FF
  if s.m_Registers regx = nn then { s with m_PC := (s.m_PC + 2) % 65536 } else s

/-- Opcode4XNN: skip next instruction if VX != NN. -/
def Opcode4XNN (opcode : Nat) (s : Chip8) : Chip8 :=
  let regx := GetRegisterX opcode
  let nn := opcode &&& 0x00FF
  if s.m_Registers regx ≠ nn then { s with m_PC := (s.m_PC + 2) % 65536 } else s

/-- Opcode5XY0: skip next instruction if VX == VY. -/
def Opcode5XY0 (opcode : Nat) (s : Chip8) : Chip8 :=
  if s.m_Registers (GetRegisterX opcode) = s.m_Registers (GetRegisterY opcode) then
    { s with m_PC := (s.m_PC + 2) % 65536 }
  else s

/-- Opcode6XNN: m_Registers[X] = NN. -/
def Opcode6XNN (opcode : Nat) (s : Chip8) : Chip8 :=
  setRegister s (GetRegisterX opcode) (opcode &&& 0x00FF)

/-- Opcode7XNN: m_Registers[X] += NN (BYTE store wraps mod 256). -/
def Opcode7XNN (opcode : Nat) (s : Chip8) : Chip8 :=
  setRegister s (GetRegisterX opcode)
    (s.m_Registers (GetRegisterX opcode) + (opcode &&& 0x00FF))

/-- Opcode8XY0: m_Registers[X] = m_Registers[Y]. -/
def Opcode8XY0 (opcode : Nat) (s : Chip8) : Chip8 :=
  setRegister s (GetRegisterX opcode) (s.m_Registers (GetRegisterY opcode))

/-- Opcode8XY1: m_Registers[X] |= m_Registers[Y]. -/
def Opcode8XY1 (opcode : Nat) (s : Chip8) : Chip8 :=
  setRegister s (GetRegisterX opcode)
    (s.m_Registers (GetRegisterX opcode) ||| s.m_Registers (GetRegisterY opcode))

/-- Opcode8XY2: m_Registers[X] &= m_Registers[Y]. -/
def Opcode8XY2 (opcode : Nat) (s : Chip8) : Chip8 :=
  setRegister s (GetRegisterX opcode)
    (s.m_Registers (GetRegisterX opcode) &&& s.m_Registers (GetRegisterY opcode))

/-- Opcode8XY3: m_Registers[X] ^= m_Registers[Y]. -/
def Opcode8XY3 (opcode : Nat) (s : Chip8) : Chip8 :=
  setRegister s (GetRegisterX opcode)
    (s.m_Registers (GetRegisterX opcode) ^^^ s.m_Registers (GetRegisterY opcode))

/-- Opcode8XY4: VF = 0; then if yval > xval, VF = 1; then
m_Registers[X] += m_Registers[Y] (re-reading both registers, as the C++ does).
Note the carry condition the source implements is yval > xval, not
xval + yval > 255. -/
def Opcode8XY4 (opcode : Nat) (s : Chip8) : Chip8 :=
  let s1 := setRegister s 0xF 0
  let xval := s1.m_Registers (GetRegisterX opcode)
  let yval := s1.m_Registers (GetRegisterY opcode)
  let s2 := if yval > xval then setRegister s1 0xF 1 else s1
  setRegister s2 (GetRegisterX opcode)
    (s2.m_Registers (GetRegisterX opcode) + s2.m_Registers (GetRegisterY opcode))

/-- Opcode8XY5: VF = 1; read xval, yval; if yval > xval, VF = 0; then
m_Registers[X] = xval - yval (int difference truncated to a BYTE). -/
def Opcode8XY5 (opcode : Nat) (s : Chip8) : Chip8 :=
  let s1 := setRegister s 0xF 1
  let xval := s1.m_Registers (GetRegisterX opcode)
  let yval := s1.m_Registers (GetRegisterY opcode)
  let s2 := if yval > xval then setRegister s1 0xF 0 else s1
  setRegister s2 (GetRegisterX opcode) (byteOfInt ((xval : Int) - (yval : Int)))

/-- Opcode8XY6: read yVal; VF = yVal and 1; then
m_Registers[X] = (m_Registers[Y] shifted right in place by 1): VY is shifted
in place first (reading its current value) and VX receives the shifted value. -/
def Opcode8XY6 (opcode : Nat) (s : Chip8) : Chip8 :=
  let yVal := s.m_Registers (GetRegisterY opcode)
  let LSB := yVal &&& 1
  let s1 := setRegister s 0xF LSB
  let shifted := s1.m_Registers (GetRegisterY opcode) >>> 1
  let s2 := setRegister s1 (GetRegisterY opcode) shifted
  setRegister s2 (GetRegisterX opcode) shifted

/-- Opcode8XY7: VF = 1; read xval, yval; if yval > xval, VF = 0; then
m_Registers[X] -= m_Registers[Y] (re-reading both registers, as the C++
does; the int difference is truncated to a BYTE).  Note the source computes
VX - VY here, not VY - VX as its own comment states. -/
def Opcode8XY7 (opcode : Nat) (s : Chip8) : Chip8 :=
  let s1 := setRegister s 0xF 1
  let xval := s1.m_Registers (GetRegisterX opcode)
  let yval := s1.m_Registers (GetRegisterY opcode)
  let s2 := if yval > xval then setRegister s1 0xF 0 else s1
  setRegister s2 (GetRegisterX opcode)
    (byteOfInt ((s2.m_Registers (GetRegisterX opcode) : Int) -
                (s2.m_Registers (GetRegisterY opcode) : Int)))

/-- Opcode8XYE: VF = m_Registers[X] shifted right 7; m_Registers[X] <<= 1.
Note the source shifts register X, not register Y. -/
def Opcode8XYE (opcode : Nat) (s : Chip8) : Chip8 :=
  let s1 := setRegister s 0xF (s.m_Registers (GetRegisterX opcode) >>> 7)
  setRegister s1 (GetRegisterX opcode) (s1.m_Registers (GetRegisterX opcode) <<< 1)

/-- Opcode9XY0: skip next instruction if VX != VY. -/
def Opcode9XY0 (opcode : Nat) (s : Chip8) : Chip8 :=
  if s.m_Registers (GetRegisterX opcode) ≠ s.m_Registers (GetRegisterY opcode) then
    { s with m_PC := (s.m_PC + 2) % 65536 }
  else s

/-- OpcodeANNN: m_AddressI = opcode and 0x0FFF. -/
def OpcodeANNN (opcode : Nat) (s : Chip8) : Chip8 :=
  { s with m_AddressI := opcode &&& 0x0FFF }

/-- OpcodeBNNN: m_PC = NNN + V0 (WORD store). -/
def OpcodeBNNN (opcode : Nat) (s : Chip8) : Chip8 :=
  { s with m_PC := ((opcode &&& 0x0FFF) + s.m_Registers 0x0) % 65536 }

/-- OpcodeCXNN: m_Registers[X] = rand() and NN.  rand() is external; the
embedding takes its value from the randValue field of the state. -/
def OpcodeCXNN (opcode : Nat) (s : Chip8) : Chip8 :=
  setRegister s (GetRegisterX opcode) (s.randValue &&& (opcode &&& 0x00FF))

/-- One screen access of OpcodeDXYN: if the pixel at (x, y) is set, VF = 1;
then m_ScreenData[x][y] ^= 1. -/
def drawPixel (s : Chip8) (x y : Nat) : Chip8 :=
  let s1 := if s.m_ScreenData (x, y) = 1 then setRegister s 0xF 1 else s
  { s1 with m_ScreenData :=
      Function.update s1.m_ScreenData (x, y) ((s1.m_ScreenData (x, y) ^^^ 1) % 256) }

/-- OpcodeDXYN: VF = 0; for each of N rows read a sprite byte at I + yline and
XOR its set bits into the screen at (coordx + xpixel, coordy + yline).  The
coordinates are used as array indices with no wrap and no clip. -/
def OpcodeDXYN (opcode : Nat) (s : Chip8) : Chip8 :=
  let height := opcode &&& 0x000F
  let coordx := s.m_Registers (GetRegisterX opcode)
  let coordy := s.m_Registers (GetRegisterY opcode)
  let s0 := setRegister s 0xF 0
  (List.range height).foldl (fun st yline =>
    let data := st.m_GameMemory (st.m_AddressI + yline)
    (List.range 8).foldl (fun st2 xpixel =>
      if data &&& (1 <<< (7 - xpixel)) ≠ 0 then
        drawPixel st2 (coordx + xpixel) (coordy + yline)
      else st2) st) s0

/-- The screen coordinates (x, y) at which OpcodeDXYN indexes m_ScreenData,
listed in loop order: one entry per set sprite bit, x = coordx + xpixel,
y = coordy + yline, exactly the indices of the C++ accesses. -/
def drawAccesses (s : Chip8) (opcode : Nat) : List (Nat × Nat) :=
  let height := opcode &&& 0x000F
  let coordx := s.m_Registers (GetRegisterX opcode)
  let coordy := s.m_Registers (GetRegisterY opcode)
  ((List.range height).map (fun yline =>
    let data := s.m_GameMemory (s.m_AddressI + yline)
    (List.range 8).filterMap (fun xpixel =>
      if data &&& (1 <<< (7 - xpixel)) ≠ 0 then
        some (coordx + xpixel, coordy + yline)
      else none))).flatten

/-- OpcodeEX9E: skip next instruction if m_Registers[X] == m_Keyboard[X]. -/
def OpcodeEX9E (opcode : Nat) (s : Chip8) : Chip8 :=
  if s.m_Registers (GetRegisterX opcode) = s.m_Keyboard (GetRegisterX opcode) then
    { s with m_PC := (s.m_PC + 2) % 65536 }
  else s

/-- OpcodeEXA1: skip next instruction if m_Registers[X] != m_Keyboard[X]. -/
def OpcodeEXA1 (opcode : Nat) (s : Chip8) : Chip8 :=
  if s.m_Registers (GetRegisterX opcode) ≠ s.m_Keyboard (GetRegisterX opcode) then
    { s with m_PC := (s.m_PC + 2) % 65536 }
  else s

/-- OpcodeFX07: m_Registers[X] = delayTimer. -/
def OpcodeFX07 (opcode : Nat) (s : Chip8) : Chip8 :=
  setRegister s (GetRegisterX opcode) s.delayTimer

/-- OpcodeFX15: delayTimer = m_Registers[X]. -/
def OpcodeFX15 (opcode : Nat) (s : Chip8) : Chip8 :=
  { s with delayTimer := s.m_Registers (GetRegisterX opcode) % 256 }

/-- OpcodeFX18: soundTimer = m_Registers[X]. -/
def OpcodeFX18 (opcode : Nat) (s : Chip8) : Chip8 :=
  { s with soundTimer := s.m_Registers (GetRegisterX opcode) % 256 }

/-- OpcodeFX1E: m_AddressI += m_Registers[X] (WORD store wraps mod 65536). -/
def OpcodeFX1E (opcode : Nat) (s : Chip8) : Chip8 :=
  { s with m_AddressI := (s.m_AddressI + s.m_Registers (GetRegisterX opcode)) % 65536 }

/-- OpcodeFX0A: scan all 16 keys; for every pressed key i set
m_Registers[X] = i.  The local keyPressed flag of the source is computed but
never used: the handler returns normally whether or not any key is pressed,
and never touches m_PC. -/
def OpcodeFX0A (opcode : Nat) (s : Chip8) : Chip8 :=
  (List.range 16).foldl (fun st i =>
    if st.m_Keyboard i ≠ 0 then setRegister st (GetRegisterX opcode) i else st) s

/-- OpcodeFX29: regx = m_Registers[X]; m_AddressI = *m_ScreenData[regx], i.e.
the byte of the FRAMEBUFFER at column regx, row 0 — not an address in the
font table. -/
def OpcodeFX29 (opcode : Nat) (s : Chip8) : Chip8 :=
  let regx := s.m_Registers (GetRegisterX opcode)
  { s with m_AddressI := s.m_ScreenData (regx, 0) % 65536 }

/-- OpcodeFX33: write the decimal digits of m_Registers[X] to memory at
I, I+1, I+2. -/
def OpcodeFX33 (opcode : Nat) (s : Chip8) : Chip8 :=
  let value := s.m_Registers (GetRegisterX opcode)
  let s1 := setMemory s s.m_AddressI (value / 100)
  let s2 := setMemory s1 (s1.m_AddressI + 1) ((value / 10) % 10)
  setMemory s2 (s2.m_AddressI + 2) (value % 10)

/-- OpcodeFX55: store V0..VX to memory at I..I+X, then I = I + X + 1. -/
def OpcodeFX55 (opcode : Nat) (s : Chip8) : Chip8 :=
  let regx := GetRegisterX opcode
  let s1 := (List.range (regx + 1)).foldl (fun st i =>
    setMemory st (st.m_AddressI + i) (st.m_Registers i)) s
  { s1 with m_AddressI := (s1.m_AddressI + regx + 1) % 65536 }

/-- OpcodeFX65: load V0..VX from memory at I..I+X, then I = I + X + 1. -/
def OpcodeFX65 (opcode : Nat) (s : Chip8) : Chip8 :=
  let xval := GetRegisterX opcode
  let s1 := (List.range (xval + 1)).foldl (fun st i =>
    setRegister st i (st.m_GameMemory (st.m_AddressI + i))) s
  { s1 with m_AddressI := (s1.m_AddressI + xval + 1) % 65536 }

/-- DecodeOpcodeCycle: the dispatch switch of the source followed by the
per-call timer decrements.  The outer switch is on the high nibble; it covers
all 16 values, so the printing default branch is unreachable.  Note that every
opcode with high nibble 5 is routed to Opcode5XY0 regardless of its low
nibble, and that unmatched low nibbles in the 0x0/0x8/0xE/0xF families fall
through the inner switch silently.  Both timers are decremented (when nonzero)
once per call, i.e. once per executed instruction. -/
def DecodeOpcodeCycle (opcode : Nat) (s : Chip8) : Chip8 :=
  let s1 :=
    if opcode &&& 0xF000 = 0x0000 then
      if opcode &&& 0x000F = 0x0000 then Opcode00E0 opcode s
      else if opcode &&& 0x000F = 0x000E then Opcode00EE opcode s
      else s
    else if opcode &&& 0xF000 = 0x1000 then Opcode1NNN opcode s
    else if opcode &&& 0xF000 = 0x2000 then Opcode2NNN opcode s
    else if opcode &&& 0xF000 = 0x3000 then Opcode3XNN opcode s
    else if opcode &&& 0xF000 = 0x4000 then Opcode4XNN opcode s
    else if opcode &&& 0xF000 = 0x5000 then Opcode5XY0 opcode s
    else if opcode &&& 0xF000 = 0x6000 then Opcode6XNN opcode s
    else if opcode &&& 0xF000 = 0x7000 then Opcode7XNN opcode s
    else if opcode &&& 0xF000 = 0x8000 then
      if opcode &&& 0x000F = 0x0000 then Opcode8XY0 opcode s
      else if opcode &&& 0x000F = 0x0001 then Opcode8XY1 opcode s
      else if opcode &&& 0x000F = 0x0002 then Opcode8XY2 opcode s
      else if opcode &&& 0x000F = 0x0003 then Opcode8XY3 opcode s
      else if opcode &&& 0x000F = 0x0004 then Opcode8XY4 opcode s
      else if opcode &&& 0x000F = 0x0005 then Opcode8XY5 opcode s
      else if opcode &&& 0x000F = 0x0006 then Opcode8XY6 opcode s
      else if opcode &&& 0x000F = 0x0007 then Opcode8XY7 opcode s
      else if opcode &&& 0x000F = 0x000E then Opcode8XYE opcode s
      else s
    else if opcode &&& 0xF000 = 0x9000 then Opcode9XY0 opcode s
    else if opcode &&& 0xF000 = 0xA000 then OpcodeANNN opcode s
    else if opcode &&& 0xF000 = 0xB000 then OpcodeBNNN opcode s
    else if opcode &&& 0xF000 = 0xC000 then OpcodeCXNN opcode s
    else if opcode &&& 0xF000 = 0xD000 then OpcodeDXYN opcode s
    else if opcode &&& 0xF000 = 0xE000 then
      if opcode &&& 0x00FF = 0x009E then OpcodeEX9E opcode s
      else if opcode &&& 0x00FF = 0x00A1 then OpcodeEXA1 opcode s
      else s
    else if opcode &&& 0xF000 = 0xF000 then
      if opcode &&& 0x00FF = 0x0007 then OpcodeFX07 opcode s
      else if opcode &&& 0x00FF = 0x000A then OpcodeFX0A opcode s
      else if opcode &&& 0x00FF = 0x0015 then OpcodeFX15 opcode s
      else if opcode &&& 0x00FF = 0x0018 then OpcodeFX18 opcode s
      else if opcode &&& 0x00FF = 0x001E then OpcodeFX1E opcode s
      else if opcode &&& 0x00FF = 0x0029 then OpcodeFX29 opcode s
      else if opcode &&& 0x00FF = 0x0033 then OpcodeFX33 opcode s
      else if opcode &&& 0x00FF = 0x0055 then OpcodeFX55 opcode s
      else if opcode &&& 0x00FF = 0x0065 then OpcodeFX65 opcode s
      else s
    else s
  let s2 := if s1.delayTimer > 0 then { s1 with delayTimer := s1.delayTimer - 1 } else s1
  if s2.soundTimer > 0 then { s2 with soundTimer := s2.soundTimer - 1 } else s2

/-- One iteration of the main loop's emulation step: fetch the opcode with
GetNextOpcode (which advances PC by 2), then run DecodeOpcodeCycle on it. -/
def CycleStep (s : Chip8) : Chip8 :=
  let fetched := GetNextOpcode s
  DecodeOpcodeCycle fetched.1 fetched.2

/-- The all-zero interpreter state with PC at the program origin 0x200. -/
def zeroChip : Chip8 :=
  { m_GameMemory := fun _ => 0, m_Registers := fun _ => 0, m_Keyboard := fun _ => 0,
    m_AddressI := 0, m_PC := 0x200, m_Stack := [], delayTimer := 0, soundTimer := 0,
    m_ScreenData := fun _ => 0, randValue := 0 }

/-- State with V0 = 250 and V1 = 10 (the add-with-carry test vector). -/
def c1state : Chip8 :=
  { zeroChip with m_Registers := fun i => if i = 0 then 250 else if i = 1 then 10 else 0 }

/-- State with V0 = 5 and V1 = 10 (the subtract-with-borrow test vector). -/
def c2state : Chip8 :=
  { zeroChip with m_Registers := fun i => if i = 0 then 5 else if i = 1 then 10 else 0 }

/-- State with V0 = 1 and V1 = 0x80 (shift-left operands). -/
def c3state : Chip8 :=
  { zeroChip with m_Registers := fun i => if i = 0 then 1 else if i = 1 then 0x80 else 0 }

/-- State with V0 = 1 and the framebuffer pixel at column 1, row 0 holding 7. -/
def c4state : Chip8 :=
  { zeroChip with m_Registers := fun i => if i = 0 then 1 else 0,
                  m_ScreenData := fun p => if p = (1, 0) then 7 else 0 }

/-- State whose program memory holds the wait-for-key opcode 0xF00A at the
program counter, with no key pressed. -/
def c5state : Chip8 :=
  { zeroChip with m_GameMemory := fun a =>
      if a = 0x200 then 0xF0 else if a = 0x201 then 0x0A else 0 }

/-- State whose program memory holds the word 0x5FFF at the program counter. -/
def c6state : Chip8 :=
  { zeroChip with m_GameMemory := fun a =>
      if a = 0x200 then 0x5F else if a = 0x201 then 0xFF else 0 }

/-- State whose call stack already holds 16 saved addresses. -/
def c7state : Chip8 :=
  { zeroChip with m_Stack := List.replicate 16 0x200 }

/-- State with the delay timer at 5. -/
def c8state : Chip8 :=
  { zeroChip with delayTimer := 5 }

/-- State with V0 = 63, V1 = 0, I = 0x300 and the sprite byte 0xFF at 0x300. -/
def c9state : Chip8 :=
  { zeroChip with m_Registers := fun i => if i = 0 then 63 else 0,
                  m_AddressI := 0x300,
                  m_GameMemory := fun a => if a = 0x300 then 0xFF else 0 }

/-- State with VF = 4 and every other register 9. -/
def c10state : Chip8 :=
  { zeroChip with m_Registers := fun i => if i = 0xF then 4 else 9 }

/-- State with V2 = 7 and every other register 0. -/
def w10state : Chip8 :=
  { zeroChip with m_Registers := fun i => if i = 2 then 7 else 0 }

/-- C1: the claim says the add-with-carry instruction 8XY4 sets VF to 1 iff
the unsigned sum exceeds 255, and gives VX = 250, VY = 10 → VX = 4, flag = 1.
Executing opcode 0x8014 on that input, the code stores the correct wrapped sum
4 into V0 but leaves VF = 0: the source derives the carry from the comparison
VY > VX instead of from overflow of the sum. -/
theorem c1_addWithCarry_flag_at_250_10 :
    (Opcode8XY4 0x8014 c1state).m_Registers 0 = 4 ∧
    (Opcode8XY4 0x8014 c1state).m_Registers 0xF = 0 := by decide

/-- C2: the claim says 8XY7 stores VY − VX into VX with VF = 0 iff VY < VX.
Executing opcode 0x8017 with VX = 5, VY = 10, the claim requires VX = 5 and
VF = 1 (no borrow since 10 ≥ 5); the code instead yields VX = 251 and VF = 0,
because Opcode8XY7 computes VX − VY with the borrow test of 8XY5. -/
theorem c2_sub8XY7_at_5_10 :
    (Opcode8XY7 0x8017 c2state).m_Registers 0 = 251 ∧
    (Opcode8XY7 0x8017 c2state).m_Registers 0xF = 0 := by decide

/-- C3: the claim says 8XYE sets VF to the most-significant bit of VY before
the shift and stores VY shifted left into VX.  Executing opcode 0x801E with
V0 = 1, V1 = 0x80, the claim requires VF = 1 (MSB of VY) and V0 = 0; the code
instead yields VF = 0 and V0 = 2, because Opcode8XYE shifts VX, not VY, and
reads the flag bit from VX. -/
theorem c3_shl8XYE_at_1_80 :
    (Opcode8XYE 0x801E c3state).m_Registers 0 = 2 ∧
    (Opcode8XYE 0x801E c3state).m_Registers 0xF = 0 ∧
    (Opcode8XYE 0x801E c3state).m_Registers 1 = 0x80 := by decide

/-- C4: the claim says FX29 sets I to font base + digit × 5 computed from the
font table.  With the digit 1 in V0 and the framebuffer pixel at column 1,
row 0 holding 7, opcode 0xF029 sets I to that framebuffer byte (7), not to a
font-table address; moreover CPUReset lays glyph 1 down at address 16 (stride
numOfSprites), so neither 5 nor any font-derived value is produced. -/
theorem c4_fontLookup_reads_framebuffer :
    (OpcodeFX29 0xF029 c4state).m_AddressI = c4state.m_ScreenData (1, 0) ∧
    (OpcodeFX29 0xF029 c4state).m_AddressI = 7 ∧
    (CPUReset zeroChip).m_GameMemory (1 * numOfSprites) = 0x20 := by decide

/-- C5: the claim says the interpreter must not move past FX0A while no key
is pressed.  Starting from PC = 0x200 with opcode 0xF00A in memory and all 16
keys up, one cycle leaves PC = 0x202: the fetch increment stands and
OpcodeFX0A never restores or holds PC, so instruction progression moves past
the wait-for-key instruction with no key pressed. -/
theorem c5_keyWait_advances_pc :
    (CycleStep c5state).m_PC = 0x202 ∧
    (CycleStep c5state).m_Registers 0 = 0 := by decide

/-- C6: the claim says an unknown word such as 0x5FFF completes as a no-op
with PC advanced by exactly 2.  Starting from PC = 0x200 with 0x5FFF in
memory, one cycle leaves PC = 0x204: the dispatcher routes every opcode with
high nibble 5 to Opcode5XY0 without checking the low nibble, and since X = Y
= 0xF the registers compare equal and the skip fires. -/
theorem c6_word5FFF_executes_skip :
    (CycleStep c6state).m_PC = 0x204 := by decide

/-- C7: the claim says a subroutine call with 16 saved addresses on the stack
is a fatal error and the stack must not grow beyond its fixed capacity.
Executing opcode 0x2300 on a state whose stack holds 16 addresses simply
pushes a 17th entry and continues with PC = 0x300: the std::vector stack has
no capacity check and no fatal-error path exists. -/
theorem c7_callOverflow_grows_stack :
    (Opcode2NNN 0x2300 c7state).m_Stack.length = 17 ∧
    (Opcode2NNN 0x2300 c7state).m_PC = 0x300 := by decide

/-- C8: the claim says two consecutive instruction cycles within one timer
tick leave a nonzero timer decremented at most once.  Starting with the delay
timer at 5, two cycles (of the benign opcode 0x0000) leave it at 3:
DecodeOpcodeCycle decrements the timers once per call, i.e. once per executed
instruction, with no real-time cadence. -/
theorem c8_timer_decrement_per_instruction :
    (CycleStep (CycleStep c8state)).delayTimer = 3 := by decide

/-- C9: the claim says every framebuffer access of DXYN lands inside the
64×32 grid under a wrap or clip policy.  Drawing the one-row sprite 0xFF at
coordinates (63, 0) via opcode 0xD011 makes the code index column 64 (and up
to 70), outside the grid: the source applies neither a modulus nor a clip to
coordx + xpixel. -/
theorem c9_draw_access_out_of_bounds :
    (64, 0) ∈ drawAccesses c9state 0xD011 ∧ ¬ (64 < SCREEN_WIDTH) := by decide

/-- C10 counterexample: with opcode 0x80F6 (X = 0, Y = 0xF, so X ≠ Y) and
VF = 4, after Opcode8XY6 register VY (= VF) holds 0, not VY shifted right by
one bit (= 2): the flag write VF := LSB precedes the in-place shift, so for
Y = 0xF the shifted value comes from the just-written flag bit, refuting the
claim as stated. -/
theorem c10_aliasF_counterexample :
    GetRegisterX 0x80F6 ≠ GetRegisterY 0x80F6 ∧
    (Opcode8XY6 0x80F6 c10state).m_Registers (GetRegisterY 0x80F6) ≠
      c10state.m_Registers (GetRegisterY 0x80F6) >>> 1 := by decide

/-- C10 amended: for the shift-right instruction 8XY6 with X ≠ Y and Y ≠ 0xF
(and VY a byte value), register VY does not keep its prior value: it is
overwritten with VY shifted right by one bit, the same value that is stored
into VX. -/
theorem c10_shiftRight_overwrites_vy (opcode : Nat) (s : Chip8)
    (hxy : GetRegisterX opcode ≠ GetRegisterY opcode)
    (hyf : GetRegisterY opcode ≠ 0xF)
    (hb : s.m_Registers (GetRegisterY opcode) < 256) :
    (Opcode8XY6 opcode s).m_Registers (GetRegisterY opcode) =
      s.m_Registers (GetRegisterY opcode) >>> 1 ∧
    (Opcode8XY6 opcode s).m_Registers (GetRegisterX opcode) =
      s.m_Registers (GetRegisterY opcode) >>> 1 := by
  have hyx : GetRegisterY opcode ≠ GetRegisterX opcode := Ne.symm hxy
  have hmod : (s.m_Registers (GetRegisterY opcode) >>> 1) % 256 =
      s.m_Registers (GetRegisterY opcode) >>> 1 := by
    apply Nat.mod_eq_of_lt
    refine lt_of_le_of_lt ?_ hb
    rw [Nat.shiftRight_eq_div_pow]
    exact Nat.div_le_self _ _
  constructor
  · unfold Opcode8XY6 setRegister
    simp only [Function.update_noteq hyf, Function.update_noteq hyx,
      Function.update_same, hmod]
  · unfold Opcode8XY6 setRegister
    simp only [Function.update_noteq hyf, Function.update_same, hmod]

/-- C10 witness: the amended theorem applied at opcode 0x8126 (X = 1, Y = 2)
on a state with V2 = 7. -/
theorem c10_shiftRight_overwrites_vy_witness :
    (Opcode8XY6 0x8126 w10state).m_Registers (GetRegisterY 0x8126) =
      w10state.m_Registers (GetRegisterY 0x8126) >>> 1 ∧
    (Opcode8XY6 0x8126 w10state).m_Registers (GetRegisterX 0x8126) =
      w10state.m_Registers (GetRegisterY 0x8126) >>> 1 :=
  c10_shiftRight_overwrites_vy 0x8126 w10state (by decide) (by decide) (by decide)
